import Mathlib

/-!
Shallow embedding of the KiAuto function-interposition shim
(src/interposer/interposer.c and src/interposer/not_used.c).

C strings are modelled as lists of bytes, List Nat: the bytes of the
NUL-terminated string up to, and excluding, the terminator.  Trace output is a
list of such byte strings, one entry per printed line, without the trailing
newline.  The dlsym-resolved real implementations are oracles: their return
values and OS-visible answers (window titles, readlink results, file contents)
enter the model as parameters.  Each interposed function is modelled after its
one-time initialization has completed (symbol resolved, cached environment
variables read), which is when its steady-state behaviour is defined.
-/

namespace Interposer

/-- Bytes of an ASCII string literal; used to transcribe the C string literals
of the source into the byte-list model. -/
def ascii (s : String) : List Nat := s.data.map Char.toNat

/-- Decimal rendering of a nonnegative number, as printf %d produces. -/
def asciiNat (n : Nat) : List Nat := ascii (toString n)

/-- A gboolean printed with %d. -/
def asciiBool (b : Bool) : List Nat := asciiNat (cond b 1 0)

/-- startsWith t l: the byte string l begins with the byte string t.  Used to
state which category tag a trace line carries. -/
def startsWith : List Nat → List Nat → Bool
  | [], _ => true
  | _ :: _, [] => false
  | a :: t, b :: l => a == b && startsWith t l

theorem startsWith_append (t m r : List Nat) (h : startsWith t m = true) :
    startsWith t (m ++ r) = true := by
  induction t generalizing m with
  | nil => rfl
  | cons a t ih =>
    cases m with
    | nil => exact absurd h (by simp [startsWith])
    | cons b m =>
      simp only [startsWith, List.cons_append, Bool.and_eq_true, beq_iff_eq] at h ⊢
      exact ⟨h.1, ih m h.2⟩

/-! ## pango_layout_set_text (interposer.c lines 41 to 76)

The static buffer holds at most MAX_STORE bytes (strncpy copies at most
MAX_STORE bytes; strncmp compares at most MAX_STORE bytes), so the retained
state is the MAX_STORE-byte truncation of the last non-filtered text. -/

def MAX_STORE : Nat := 1024

/-- The filter of interposer.c lines 59 to 64: a text is dropped when it is
empty, the measuring probes g, ..., one of the two 3-byte bullet glyphs
(0xE2 0x97 0x8F and 0xE2 0x80 0xA2), or the probe string ABCDEFHXfgkj. -/
def pangoFiltered (text : List Nat) : Bool :=
  text = [] ||
  text = [0x67] ||
  text = [0x2E, 0x2E, 0x2E] ||
  text = [0xE2, 0x97, 0x8F] ||
  text = [0xE2, 0x80, 0xA2] ||
  text = ascii "ABCDEFHXfgkj"

/-- One call to pango_layout_set_text, after initialization: given the retained
buffer, return the new buffer and the emitted trace lines.  A non-filtered text
is logged when strncmp(text, buffer, MAX_STORE) differs, i.e. when its
MAX_STORE-byte truncation differs from the buffer, and is then stored with
strncpy (truncated to MAX_STORE bytes); a filtered text touches nothing. -/
def pango_layout_set_text (buffer text : List Nat) :
    List Nat × List (List Nat) :=
  if pangoFiltered text then (buffer, [])
  else
    (text.take MAX_STORE,
     if text.take MAX_STORE ≠ buffer then [ascii "PANGO:" ++ text] else [])

/-- Run a sequence of pango_layout_set_text calls from a given buffer state,
collecting all emitted trace lines. -/
def pangoRun (buffer : List Nat) : List (List Nat) → List (List Nat)
  | [] => []
  | t :: ts =>
    let s := pango_layout_set_text buffer t
    s.2 ++ pangoRun s.1 ts

example : ascii "GTK:" = [71, 84, 75, 58] := by decide
example : pangoRun [] [ascii "X", ascii "X"] = [ascii "PANGO:X"] := by decide
example : (pangoRun [] [ascii "X", ascii "Y", ascii "X"]).length = 3 := by decide
example : pangoRun [] [[0x67]] = [] := by decide

/-! ## glXSwapBuffers (interposer.c lines 22 to 39) -/

/-- One call after initialization: the static counter cnt is printed and then
incremented.  The display and drawable arguments do not influence the shim. -/
def glXSwapBuffers (cnt : Nat) : Nat × List (List Nat) :=
  (cnt + 1, [ascii "GLX:Swap " ++ asciiNat cnt])

/-! ## Window and widget notifiers (interposer.c lines 79 to 136) -/

def gtk_window_set_title (title : List Nat) : List (List Nat) :=
  [ascii "GTK:Window Title:" ++ title]

/-- The gtk_window_get_title answer for the window is the title oracle
parameter; modal is the gboolean argument printed with %d. -/
def gtk_window_set_modal (title : List Nat) (modal : Bool) : List (List Nat) :=
  [ascii "GTK:Window Set Modal:" ++ title ++ ascii " " ++ asciiBool modal]

/-- Logs only when GTK_IS_WINDOW(widget) holds; the non-window branch is
commented out in the source and prints nothing. -/
def gtk_widget_show (isWindow : Bool) (title : List Nat) : List (List Nat) :=
  if isWindow then [ascii "GTK:Window Show:" ++ title] else []

/-! ## gtk_button_set_label (interposer.c lines 139 to 174) -/

/-- The second branch of the rewriting chain tests only the four bytes
label[0] to label[3] against S, a, v, e; there is no check that the string
ends there.  A string shorter than four bytes fails the test through its NUL
terminator, which the byte-list pattern reproduces. -/
def startsWithSave (label : List Nat) : Bool :=
  match label with
  | a :: b :: c :: d :: _ => a == 0x53 && b == 0x61 && c == 0x76 && d == 0x65
  | _ => false

/-- The label rewriting chain of interposer.c lines 153 to 168, in source
order. -/
def gtk_button_set_label_subst (label : List Nat) : List Nat :=
  if label = ascii "Print" then ascii "_Print"
  else if startsWithSave label then ascii "_Save"
  else if label = ascii "Plot Current Page" then ascii "Plot _Current Page"
  else if label = ascii "Plot All Pages" then ascii "Plot _All Pages"
  else if label = ascii "Generate Netlist" ∨ label = ascii "Export Netlist" then
    ascii "_Export Netlist"
  else if label = ascii "Close" then ascii "C_lose"
  else if label = ascii "Generate" then ascii "_Generate"
  else label

/-- gtk_button_set_label after initialization: the first component is the
label actually forwarded to the real implementation, the second the trace
lines.  The source emits the second line when the label pointer was
reassigned, which happens exactly when a rewriting branch fired; every
replacement literal differs from every string matching its trigger, so value
inequality coincides with the pointer test. -/
def gtk_button_set_label (label : List Nat) : List Nat × List (List Nat) :=
  let lbl := gtk_button_set_label_subst label
  (lbl,
   [ascii "GTK:Button Label:" ++ lbl] ++
     (if lbl ≠ label then [ascii "GTK:Button Label:**Changed from " ++ label]
      else []))

/-! ## gtk_label_set_text_with_mnemonic (interposer.c lines 259 to 309) -/

/-- The rewriting chain of interposer.c lines 274 to 303, in source order. -/
def gtk_label_set_text_with_mnemonic_subst (str : List Nat) : List Nat :=
  if str = ascii "Report all errors for tracks (slower)" then
    ascii "_Report all errors for tracks (slower)"
  else if str = ascii "Flip bottom footprint padstacks" then
    ascii "_Flip bottom footprint padstacks"
  else if str = ascii "Generate unique pin names" then
    ascii "_Generate unique pin names"
  else if str = ascii "Generate a new shape for each footprint instance (do not reuse shapes)" then
    ascii "Generate a _new shape for each footprint instance (do not reuse shapes)"
  else if str = ascii "Use drill/place file origin as origin" ∨
          str = ascii "Use auxiliary axis as origin" then
    ascii "_Use drill/place file origin as origin"
  else if str = ascii "Save the origin coordinates in the file" then
    ascii "_Save the origin coordinates in the file"
  else if str = ascii "Export" then ascii "E_xport"
  else if str = ascii "GenCAD..." then ascii "_GenCAD..."
  else if str = ascii "Output directory:" then ascii "_Output directory:"
  else if str = ascii "Command line running the generator:" then
    ascii "C_ommand line running the generator:"
  else if str = ascii "Command line:" then ascii "C_ommand line:"
  else if str = ascii "Create ERC file report" then
    ascii "_Create ERC file report"
  else str

def gtk_label_set_text_with_mnemonic (str : List Nat) :
    List Nat × List (List Nat) :=
  let s := gtk_label_set_text_with_mnemonic_subst str
  (s, [ascii "GTK:Label Set Text 2:" ++ s])

/-! ## gtk_label_set_text (not_used.c lines 230 to 249) -/

def gtk_label_set_text_subst (str : List Nat) : List Nat :=
  if str = ascii "Report all errors for tracks (slower)" then
    ascii "_Report all errors for tracks (slower)"
  else str

def gtk_label_set_text (str : List Nat) : List Nat × List (List Nat) :=
  let s := gtk_label_set_text_subst str
  (s, [ascii "GTK:Label Set Text:" ++ s])

/-! ## Print option globals and load_print_options (interposer.c lines 176
to 216) -/

/-- The three option globals dir_name, base_name and format of interposer.c
lines 176 to 178 (format is called fmt here). -/
structure PrintOpts where
  dir_name : List Nat
  base_name : List Nat
  fmt : List Nat
  deriving DecidableEq

/-- The built-in initial values of the three globals. -/
def defaultOpts : PrintOpts :=
  { dir_name := ascii "/tmp", base_name := ascii "pp", fmt := ascii "pdf" }

/-- Position of the line terminator in a raw line as g_io_channel_read_line
reports it through terminator_pos: the index of the newline byte, or the
length of the line data when the final line carries no terminator.  Raw lines
contain no interior newline, so the first occurrence models both cases. -/
def terminatorPos : List Nat → Nat
  | [] => 0
  | a :: r => if a = 10 then 0 else terminatorPos r + 1

/-- load_print_options.  env is the value of KIAUTO_INTERPOSER_PRINT; file is
none when g_io_channel_new_file fails and otherwise the list of raw lines of
the file, each including its terminator, in the order g_io_channel_read_line
returns them.  The result is none when the source would write through a NULL
pointer: at end of file g_io_channel_read_line stores NULL into the string
argument, and the following line[terminator_pos] = 0 store is undefined
behaviour.  On success the result is the new option values and the printed
lines. -/
def load_print_options (env : Option (List Nat))
    (file : Option (List (List Nat))) (opts : PrintOpts) :
    Option (PrintOpts × List (List Nat)) :=
  match env with
  | none => some (opts, [ascii "GTK:Error:KIAUTO_INTERPOSER_PRINT not defined"])
  | some fn =>
    match file with
    | none =>
      some (opts, [ascii "GTK:Read:Dir_Name:" ++ opts.dir_name,
                   ascii "GTK:Error:Unable to load " ++ fn])
    | some ls =>
      match ls[0]?, ls[1]?, ls[2]? with
      | some r1, some r2, some r3 =>
        let d := r1.take (terminatorPos r1)
        let b := r2.take (terminatorPos r2)
        let f := r3.take (terminatorPos r3)
        some ({ dir_name := d, base_name := b, fmt := f },
              [ascii "GTK:Read:Dir_Name:" ++ opts.dir_name,
               ascii "GTK:Read:Dir_Name:" ++ d,
               ascii "GTK:Read:Base_Name:" ++ b,
               ascii "GTK:Read:Format:" ++ f])
      | _, _, _ => none

/-! ## gtk_print_operation_run (interposer.c lines 222 to 256) -/

/-- The observable effects of gtk_print_operation_run on the print settings
and the dialog, in program order. -/
inductive PrintAction where
  | setSetting (key value : List Nat)
  | setPrinter (name : List Nat)
  | setBackends (value : List Nat)
  | callReal
  deriving DecidableEq

/-- The body executed on every invocation (interposer.c lines 239 to 255),
given the current option globals: the returned result, the ordered effect
sequence, and the trace line.  realRes is the value the real implementation
returns, parentTitle the gtk_window_get_title oracle for the parent.  The
GTK setting keys output-basename, output-dir and output-file-format are the
values of the GTK_PRINT_SETTINGS macros used in the source. -/
def gtk_print_operation_run (opts : PrintOpts) (realRes : Nat)
    (parentTitle : List Nat) : Nat × List PrintAction × List (List Nat) :=
  (realRes,
   [PrintAction.setSetting (ascii "output-basename") opts.base_name,
    PrintAction.setSetting (ascii "output-dir") opts.dir_name,
    PrintAction.setSetting (ascii "output-file-format") opts.fmt,
    PrintAction.setPrinter (ascii "Print to File"),
    PrintAction.setBackends (ascii "file"),
    PrintAction.callReal],
   [ascii "GTK:Print Run:" ++ parentTitle])

/-- The first invocation: one-time initialization runs load_print_options on
the built-in defaults, then the every-call body runs with the resulting
options.  none propagates the undefined behaviour of load_print_options. -/
def gtk_print_operation_run_first (env : Option (List Nat))
    (file : Option (List (List Nat))) (realRes : Nat) (parentTitle : List Nat) :
    Option (Nat × List PrintAction × List (List Nat)) :=
  (load_print_options env file defaultOpts).map fun s =>
    let r := gtk_print_operation_run s.1 realRes parentTitle
    (r.1, r.2.1, s.2 ++ r.2.2)

/-! ## gtk_file_chooser_get_filename (interposer.c lines 312 to 344) -/

/-- After initialization: fn is the cached value of KIAUTO_INTERPOSER_FILENAME
read on the first call, realRes the string the real chooser returned.  With fn
present the result is g_strdup(fn), i.e. the override value. -/
def gtk_file_chooser_get_filename (fn : Option (List Nat))
    (realRes : List Nat) : List Nat × List (List Nat) :=
  match fn with
  | some f =>
    (f, [ascii "GTK:Filename:" ++ f,
         ascii "GTK:Filename:**Changed from " ++ realRes])
  | none => (realRes, [ascii "GTK:Filename:" ++ realRes])

/-! ## File descriptor lifecycle notifiers (interposer.c lines 347 to 470,
not_used.c lines 143 to 161 and 355 to 376) -/

/-- The mode test of fopen and fopen64: mode[0] is w and mode[1] is t.  A
shorter mode string fails the test through its NUL terminator. -/
def modeWT : List Nat → Bool
  | a :: b :: _ => a == 0x77 && b == 0x74
  | _ => false

def fopen {α : Type} (realRes : α) (filename mode : List Nat) :
    α × List (List Nat) :=
  (realRes, if modeWT mode then [ascii "IO:fopen:" ++ filename] else [])

/-- fopen64 logs with the IO:open legend (interposer.c line 387). -/
def fopen64 {α : Type} (realRes : α) (filename mode : List Nat) :
    α × List (List Nat) :=
  (realRes, if modeWT mode then [ascii "IO:open:" ++ filename] else [])

/-- resolvedPath is the readlink answer for /proc/self/fd of the stream, an
operating-system oracle; it degrades to an empty string when the link cannot
be read, which the parameter also covers. -/
def fclose (realRes : Int) (resolvedPath : List Nat) : Int × List (List Nat) :=
  (realRes, [ascii "IO:close:" ++ resolvedPath])

def open64 (realRes : Int) (pathname : List Nat) : Int × List (List Nat) :=
  (realRes, [ascii "IO:open:" ++ pathname])

def close (realRes : Int) (resolvedPath : List Nat) : Int × List (List Nat) :=
  (realRes, [ascii "IO:close:" ++ resolvedPath])

def gtk_dialog_run (realRes : Int) (title : List Nat) :
    Int × List (List Nat) :=
  (realRes, [ascii "GTK:Dialog Run:" ++ title])

/-- gtk_main_iteration (not_used.c lines 355 to 376) prints an In line before
delegating and an Out line carrying the result after. -/
def gtk_main_iteration (realRes : Bool) : Bool × List (List Nat) :=
  (realRes,
   [ascii "GTK:gtk_main_iteration:In",
    ascii "GTK:gtk_main_iteration:Out " ++ asciiBool realRes])

/-! ## Spec-side ordered literal-match tables

The design specification describes the argument rewriting as an ordered list
of literal patterns compared by exact equality, first match substituted.
These definitions follow the words of the specification and are compared
against the if-chains transcribed from the source above. -/

/-- First entry whose pattern equals the string, in table order. -/
def tableLookup : List (List Nat × List Nat) → List Nat → Option (List Nat)
  | [], _ => none
  | p :: rest, s => if s = p.1 then some p.2 else tableLookup rest s

/-- The exact-match rows of the gtk_button_set_label chain, in source order;
the Save branch is not an exact match and is kept apart. -/
def buttonTable : List (List Nat × List Nat) :=
  [(ascii "Print", ascii "_Print"),
   (ascii "Plot Current Page", ascii "Plot _Current Page"),
   (ascii "Plot All Pages", ascii "Plot _All Pages"),
   (ascii "Generate Netlist", ascii "_Export Netlist"),
   (ascii "Export Netlist", ascii "_Export Netlist"),
   (ascii "Close", ascii "C_lose"),
   (ascii "Generate", ascii "_Generate")]

/-- The table the claim describes for gtk_button_set_label: every branch read
as an exact-match row, the Save branch included as the literal Save. -/
def buttonTableClaimed : List (List Nat × List Nat) :=
  [(ascii "Print", ascii "_Print"),
   (ascii "Save", ascii "_Save"),
   (ascii "Plot Current Page", ascii "Plot _Current Page"),
   (ascii "Plot All Pages", ascii "Plot _All Pages"),
   (ascii "Generate Netlist", ascii "_Export Netlist"),
   (ascii "Export Netlist", ascii "_Export Netlist"),
   (ascii "Close", ascii "C_lose"),
   (ascii "Generate", ascii "_Generate")]

/-- The rows of the gtk_label_set_text_with_mnemonic chain, in source order. -/
def mnemonicTable : List (List Nat × List Nat) :=
  [(ascii "Report all errors for tracks (slower)",
    ascii "_Report all errors for tracks (slower)"),
   (ascii "Flip bottom footprint padstacks",
    ascii "_Flip bottom footprint padstacks"),
   (ascii "Generate unique pin names",
    ascii "_Generate unique pin names"),
   (ascii "Generate a new shape for each footprint instance (do not reuse shapes)",
    ascii "Generate a _new shape for each footprint instance (do not reuse shapes)"),
   (ascii "Use drill/place file origin as origin",
    ascii "_Use drill/place file origin as origin"),
   (ascii "Use auxiliary axis as origin",
    ascii "_Use drill/place file origin as origin"),
   (ascii "Save the origin coordinates in the file",
    ascii "_Save the origin coordinates in the file"),
   (ascii "Export", ascii "E_xport"),
   (ascii "GenCAD...", ascii "_GenCAD..."),
   (ascii "Output directory:", ascii "_Output directory:"),
   (ascii "Command line running the generator:",
    ascii "C_ommand line running the generator:"),
   (ascii "Command line:", ascii "C_ommand line:"),
   (ascii "Create ERC file report", ascii "_Create ERC file report")]

/-- The single row of the gtk_label_set_text chain. -/
def labelTextTable : List (List Nat × List Nat) :=
  [(ascii "Report all errors for tracks (slower)",
    ascii "_Report all errors for tracks (slower)")]

/-! ## Helper lemmas -/

theorem take_MAX_STORE_ne_nil {l : List Nat} (h : l ≠ []) :
    l.take MAX_STORE ≠ [] := by
  intro ht
  rcases List.take_eq_nil_iff.mp ht with h0 | hl
  · exact absurd h0 (by decide)
  · exact h hl

theorem pangoFiltered_nil : pangoFiltered [] = true := by decide

theorem ne_nil_of_not_filtered {l : List Nat} (h : pangoFiltered l = false) :
    l ≠ [] := by
  intro hl; subst hl; exact absurd pangoFiltered_nil (by simp [h])

theorem terminatorPos_append (d : List Nat) (h : 10 ∉ d) :
    terminatorPos (d ++ [10]) = d.length := by
  induction d with
  | nil => rfl
  | cons a d ih =>
    have ha : a ≠ 10 := fun h10 => h (h10 ▸ List.mem_cons_self a d)
    have hd : 10 ∉ d := fun hm => h (List.mem_cons_of_mem a hm)
    simp [terminatorPos, ha, ih hd]

/-- Stripping the terminator of a newline-terminated line recovers the line
content verbatim. -/
theorem stripLine (d : List Nat) (h : 10 ∉ d) :
    (d ++ [10]).take (terminatorPos (d ++ [10])) = d := by
  rw [terminatorPos_append d h]
  exact List.take_left d [10]

/-! ## Claim C1 -/

/-- C1 (amended): every value-returning interposed function returns the real
implementation result unchanged, with one exception: for fopen, fopen64,
fclose, open64, close, gtk_print_operation_run, gtk_dialog_run and
gtk_main_iteration this holds for every input, while
gtk_file_chooser_get_filename returns the real result only when
KIAUTO_INTERPOSER_FILENAME was unset at first invocation. -/
theorem C1_returns_real_result :
    (∀ (α : Type) (r : α) (f m : List Nat), (fopen r f m).1 = r) ∧
    (∀ (α : Type) (r : α) (f m : List Nat), (fopen64 r f m).1 = r) ∧
    (∀ (r : Int) (p : List Nat), (fclose r p).1 = r) ∧
    (∀ (r : Int) (p : List Nat), (open64 r p).1 = r) ∧
    (∀ (r : Int) (p : List Nat), (close r p).1 = r) ∧
    (∀ (o : PrintOpts) (r : Nat) (t : List Nat),
      (gtk_print_operation_run o r t).1 = r) ∧
    (∀ (r : Int) (t : List Nat), (gtk_dialog_run r t).1 = r) ∧
    (∀ r : Bool, (gtk_main_iteration r).1 = r) ∧
    (∀ realRes : List Nat,
      (gtk_file_chooser_get_filename none realRes).1 = realRes) :=
  ⟨fun _ _ _ _ => rfl, fun _ _ _ _ => rfl, fun _ _ => rfl, fun _ _ => rfl,
   fun _ _ => rfl, fun _ _ _ => rfl, fun _ _ => rfl, fun _ => rfl,
   fun _ => rfl⟩

/-- C1 counterexample: with KIAUTO_INTERPOSER_FILENAME cached as /x, the value
gtk_file_chooser_get_filename returns differs from the value /y the real
chooser returned, so the shim does alter a return value. -/
theorem C1_counterexample :
    (gtk_file_chooser_get_filename (some (ascii "/x")) (ascii "/y")).1 ≠
      ascii "/y" := by decide

/-! ## Claim C3 -/

/-- Texts one byte longer than MAX_STORE that agree on their first MAX_STORE
bytes and differ in the last byte. -/
def bigA : List Nat := List.replicate MAX_STORE 97 ++ [120]

def bigB : List Nat := List.replicate MAX_STORE 97 ++ [121]

set_option maxRecDepth 100000 in
/-- C3 counterexample: bigA and bigB are non-empty, non-probe and different,
yet the sequence bigA, bigB, bigA produces one trace line, not three: the
retained buffer stores only the first MAX_STORE bytes, so the comparison
cannot tell bigA from bigB. -/
theorem C3_counterexample :
    bigA ≠ [] ∧ bigB ≠ [] ∧ pangoFiltered bigA = false ∧
    pangoFiltered bigB = false ∧ bigA ≠ bigB ∧
    (pangoRun [] [bigA, bigB, bigA]).length ≠ 3 := by decide

/-- C3 (amended): for non-probe texts A and B whose MAX_STORE-byte truncations
differ (in particular for any different A and B of at most MAX_STORE bytes),
the call sequence A, A emits exactly one trace line and A, B, A exactly
three. -/
theorem C3_adjacent_dedup (A B : List Nat)
    (hA : pangoFiltered A = false) (hB : pangoFiltered B = false)
    (hAB : A.take MAX_STORE ≠ B.take MAX_STORE) :
    (pangoRun [] [A, A]).length = 1 ∧ (pangoRun [] [A, B, A]).length = 3 := by
  have hAt : A.take MAX_STORE ≠ [] :=
    take_MAX_STORE_ne_nil (ne_nil_of_not_filtered hA)
  have hBA : B.take MAX_STORE ≠ A.take MAX_STORE := fun h => hAB h.symm
  constructor <;>
    simp [pangoRun, pango_layout_set_text, hA, hB, hAt, hAB, hBA]

/-- C3 witness: the amended statement evaluated at the one-byte texts X and
Y. -/
theorem C3_witness :
    (pangoRun [] [[88], [88]]).length = 1 ∧
    (pangoRun [] [[88], [89], [88]]).length = 3 :=
  C3_adjacent_dedup [88] [89] (by decide) (by decide) (by decide)

/-! ## Claim C10 -/

/-- C10: a filtered text (empty, probe or bullet glyph) emits no trace line
and leaves the retained buffer unchanged, so a probe between two occurrences
of the same non-filtered text does not break the suppression: X, P, X emits
exactly one line. -/
theorem C10_filtered_probe_transparent :
    (∀ (P buffer : List Nat), pangoFiltered P = true →
      pango_layout_set_text buffer P = (buffer, [])) ∧
    (∀ X P : List Nat, pangoFiltered X = false → pangoFiltered P = true →
      (pangoRun [] [X, P, X]).length = 1) := by
  constructor
  · intro P buffer h
    simp [pango_layout_set_text, h]
  · intro X P hX hP
    have hXt : X.take MAX_STORE ≠ [] :=
      take_MAX_STORE_ne_nil (ne_nil_of_not_filtered hX)
    simp [pangoRun, pango_layout_set_text, hX, hP, hXt]

/-- C10 witness: the filtered probe g and its transparency in the sequence X,
g, X, both evaluated concretely. -/
theorem C10_witness :
    pango_layout_set_text [88] [103] = ([88], []) ∧
    (pangoRun [] [[88], [103], [88]]).length = 1 :=
  ⟨C10_filtered_probe_transparent.1 [103] [88] (by decide),
   C10_filtered_probe_transparent.2 [88] [103] (by decide) (by decide)⟩

/-! ## Claim C6 -/

/-- C6: with KIAUTO_INTERPOSER_FILENAME cached as f at first invocation, every
call returns f regardless of the real chooser result, and logs exactly two
lines: the first ending in the override value, the second ending in the
original value it replaced. -/
theorem C6_filename_override (f realRes : List Nat) :
    (gtk_file_chooser_get_filename (some f) realRes).1 = f ∧
    (gtk_file_chooser_get_filename (some f) realRes).2.length = 2 ∧
    (∃ p, ((gtk_file_chooser_get_filename (some f) realRes).2)[0]? =
      some (p ++ f)) ∧
    (∃ q, ((gtk_file_chooser_get_filename (some f) realRes).2)[1]? =
      some (q ++ realRes)) :=
  ⟨rfl, rfl, ⟨ascii "GTK:Filename:", rfl⟩,
   ⟨ascii "GTK:Filename:**Changed from ", rfl⟩⟩

/-! ## Claim C7 -/

/-- C7: the claim expects load_print_options to terminate normally on a
configuration file with fewer than three lines, each missing value keeping its
default; the code instead reaches undefined behaviour, modelled as none: at
end of file g_io_channel_read_line stores NULL into the string argument and
the following line[terminator_pos] = 0 store writes through NULL.  Evaluated
at a readable two-line file. -/
theorem C7_truncated_file_is_undefined :
    load_print_options (some (ascii "opts.txt"))
      (some [ascii "/tmp" ++ [10], ascii "pp" ++ [10]]) defaultOpts =
      none := by decide

/-! ## Claim C9 -/

/-- C9: fopen and fopen64 delegate and return the real result for every mode;
the trace line, which carries the file name, is emitted exactly when the mode
string begins with the bytes w t, and any other mode emits nothing. -/
theorem C9_fopen_logs_only_wt (α : Type) (r : α) (filename mode : List Nat) :
    (fopen r filename mode).1 = r ∧
    (fopen64 r filename mode).1 = r ∧
    (modeWT mode = true →
      (fopen r filename mode).2 = [ascii "IO:fopen:" ++ filename] ∧
      (fopen64 r filename mode).2 = [ascii "IO:open:" ++ filename]) ∧
    (modeWT mode = false →
      (fopen r filename mode).2 = [] ∧
      (fopen64 r filename mode).2 = []) := by
  refine ⟨rfl, rfl, fun h => ?_, fun h => ?_⟩ <;> simp [fopen, fopen64, h]

/-- C9 witness: fopen evaluated at mode wt and at mode r. -/
theorem C9_witness :
    (fopen (0 : Nat) (ascii "/a") (ascii "wt")).2 =
      [ascii "IO:fopen:" ++ ascii "/a"] ∧
    (fopen (0 : Nat) (ascii "/a") (ascii "r")).2 = [] :=
  ⟨((C9_fopen_logs_only_wt Nat 0 (ascii "/a") (ascii "wt")).2.2.1
      (by decide)).1,
   ((C9_fopen_logs_only_wt Nat 0 (ascii "/a") (ascii "r")).2.2.2
      (by decide)).1⟩

/-! ## Claim C4 -/

theorem tableLookup_cons_getD (p r : List Nat)
    (tab : List (List Nat × List Nat)) (s : List Nat) :
    (tableLookup ((p, r) :: tab) s).getD s =
      if s = p then r else (tableLookup tab s).getD s := by
  by_cases h : s = p <;> simp [tableLookup, h]

theorem tableLookup_nil_getD (s : List Nat) :
    (tableLookup [] s).getD s = s := rfl

set_option maxHeartbeats 2000000 in
set_option maxRecDepth 10000 in
/-- C4 (amended): gtk_label_set_text_with_mnemonic and gtk_label_set_text
match by exact literal equality against their ordered tables, substitute the
first matching row at most once, and forward every other string byte for
byte; gtk_button_set_label does the same for its exact rows except that its
Save branch matches any label whose first four bytes are S a v e and replaces
the whole label with _Save. -/
theorem C4_table_semantics (s : List Nat) :
    gtk_label_set_text_with_mnemonic_subst s =
      (tableLookup mnemonicTable s).getD s ∧
    gtk_label_set_text_subst s = (tableLookup labelTextTable s).getD s ∧
    gtk_button_set_label_subst s =
      (if startsWithSave s then ascii "_Save"
       else (tableLookup buttonTable s).getD s) := by
  refine ⟨?_, ?_, ?_⟩
  · by_cases hm : s ∈ [ascii "Report all errors for tracks (slower)",
      ascii "Flip bottom footprint padstacks",
      ascii "Generate unique pin names",
      ascii "Generate a new shape for each footprint instance (do not reuse shapes)",
      ascii "Use drill/place file origin as origin",
      ascii "Use auxiliary axis as origin",
      ascii "Save the origin coordinates in the file",
      ascii "Export",
      ascii "GenCAD...",
      ascii "Output directory:",
      ascii "Command line running the generator:",
      ascii "Command line:",
      ascii "Create ERC file report"]
    · fin_cases hm <;> decide
    · simp only [List.mem_cons, List.not_mem_nil, or_false, not_or] at hm
      obtain ⟨h1, h2, h3, h4, h5, h6, h7, h8, h9, h10, h11, h12, h13⟩ := hm
      simp [gtk_label_set_text_with_mnemonic_subst, mnemonicTable, tableLookup,
        h1, h2, h3, h4, h5, h6, h7, h8, h9, h10, h11, h12, h13]
  · by_cases h : s = ascii "Report all errors for tracks (slower)"
    · subst h; decide
    · simp [gtk_label_set_text_subst, labelTextTable, tableLookup, h]
  · by_cases hs : startsWithSave s = true
    · have hP : ¬ s = ascii "Print" := fun h => absurd (h ▸ hs) (by decide)
      simp only [gtk_button_set_label_subst]
      rw [if_neg hP, if_pos hs, if_pos hs]
    · by_cases hm : s ∈ [ascii "Print", ascii "Plot Current Page",
        ascii "Plot All Pages", ascii "Generate Netlist",
        ascii "Export Netlist", ascii "Close", ascii "Generate"]
      · fin_cases hm <;> decide
      · simp only [List.mem_cons, List.not_mem_nil, or_false, not_or] at hm
        obtain ⟨g1, g2, g3, g4, g5, g6, g7⟩ := hm
        simp [gtk_button_set_label_subst, buttonTable, tableLookup, hs,
          g1, g2, g3, g4, g5, g6, g7]

/-- C4 counterexample: SaveX equals no pattern of the claimed literal table
for gtk_button_set_label, yet it is not forwarded unmodified: the Save branch
examines only the first four bytes and rewrites the label to _Save, which is
not the original text with a marker inserted. -/
theorem C4_counterexample :
    tableLookup buttonTableClaimed (ascii "SaveX") = none ∧
    gtk_button_set_label_subst (ascii "SaveX") ≠ ascii "SaveX" ∧
    gtk_button_set_label_subst (ascii "SaveX") = ascii "_Save" := by decide

/-! ## Claim C8 -/

/-- C8: on every invocation, the action sequence of gtk_print_operation_run
consists of the five setting mutations (output basename, output directory,
output file format, the Print to File printer, the file-only backend
restriction) followed by the delegation to the real implementation: the real
print dialog is reached exactly once, and only after all five mutations. -/
theorem C8_mutations_precede_real (opts : PrintOpts) (realRes : Nat)
    (parentTitle : List Nat) :
    ∃ pre,
      (gtk_print_operation_run opts realRes parentTitle).2.1 =
        pre ++ [PrintAction.callReal] ∧
      PrintAction.callReal ∉ pre ∧
      PrintAction.setSetting (ascii "output-basename") opts.base_name ∈ pre ∧
      PrintAction.setSetting (ascii "output-dir") opts.dir_name ∈ pre ∧
      PrintAction.setSetting (ascii "output-file-format") opts.fmt ∈ pre ∧
      PrintAction.setPrinter (ascii "Print to File") ∈ pre ∧
      PrintAction.setBackends (ascii "file") ∈ pre := by
  refine ⟨[PrintAction.setSetting (ascii "output-basename") opts.base_name,
           PrintAction.setSetting (ascii "output-dir") opts.dir_name,
           PrintAction.setSetting (ascii "output-file-format") opts.fmt,
           PrintAction.setPrinter (ascii "Print to File"),
           PrintAction.setBackends (ascii "file")],
          rfl, ?_, ?_, ?_, ?_, ?_, ?_⟩ <;> simp

/-! ## Claim C5 -/

/-- C5: on the first invocation of gtk_print_operation_run, with
KIAUTO_INTERPOSER_PRINT unset the dialog settings applied are exactly the
defaults /tmp, pp and pdf; with it naming a readable file of three
newline-terminated lines, the directory, base name and format applied are
exactly those three lines with their terminators stripped. -/
theorem C5_print_configuration (file : Option (List (List Nat)))
    (fn d b f parentTitle : List Nat) (realRes : Nat)
    (hd : 10 ∉ d) (hb : 10 ∉ b) (hf : 10 ∉ f) :
    (∃ acts lines,
      gtk_print_operation_run_first none file realRes parentTitle =
        some (realRes, acts, lines) ∧
      PrintAction.setSetting (ascii "output-dir") (ascii "/tmp") ∈ acts ∧
      PrintAction.setSetting (ascii "output-basename") (ascii "pp") ∈ acts ∧
      PrintAction.setSetting (ascii "output-file-format") (ascii "pdf") ∈
        acts ∧
      (∀ v, PrintAction.setSetting (ascii "output-dir") v ∈ acts →
        v = ascii "/tmp") ∧
      (∀ v, PrintAction.setSetting (ascii "output-basename") v ∈ acts →
        v = ascii "pp") ∧
      (∀ v, PrintAction.setSetting (ascii "output-file-format") v ∈ acts →
        v = ascii "pdf")) ∧
    (∃ acts lines,
      gtk_print_operation_run_first (some fn)
          (some [d ++ [10], b ++ [10], f ++ [10]]) realRes parentTitle =
        some (realRes, acts, lines) ∧
      PrintAction.setSetting (ascii "output-dir") d ∈ acts ∧
      PrintAction.setSetting (ascii "output-basename") b ∈ acts ∧
      PrintAction.setSetting (ascii "output-file-format") f ∈ acts ∧
      (∀ v, PrintAction.setSetting (ascii "output-dir") v ∈ acts → v = d) ∧
      (∀ v, PrintAction.setSetting (ascii "output-basename") v ∈ acts →
        v = b) ∧
      (∀ v, PrintAction.setSetting (ascii "output-file-format") v ∈ acts →
        v = f)) := by
  have hk1 : ascii "output-dir" ≠ ascii "output-basename" := by decide
  have hk2 : ascii "output-dir" ≠ ascii "output-file-format" := by decide
  have hk3 : ascii "output-basename" ≠ ascii "output-dir" := by decide
  have hk4 : ascii "output-basename" ≠ ascii "output-file-format" := by decide
  have hk5 : ascii "output-file-format" ≠ ascii "output-dir" := by decide
  have hk6 : ascii "output-file-format" ≠ ascii "output-basename" := by decide
  constructor
  · refine ⟨[PrintAction.setSetting (ascii "output-basename") (ascii "pp"),
             PrintAction.setSetting (ascii "output-dir") (ascii "/tmp"),
             PrintAction.setSetting (ascii "output-file-format") (ascii "pdf"),
             PrintAction.setPrinter (ascii "Print to File"),
             PrintAction.setBackends (ascii "file"),
             PrintAction.callReal], _, rfl, by decide, by decide, by decide,
            ?_, ?_, ?_⟩ <;>
      (intro v hv;
       simp [hk1, hk2, hk3, hk4, hk5, hk6] at hv;
       exact hv)
  · have hload :
        load_print_options (some fn)
            (some [d ++ [10], b ++ [10], f ++ [10]]) defaultOpts =
          some ({ dir_name := d, base_name := b, fmt := f },
                [ascii "GTK:Read:Dir_Name:" ++ defaultOpts.dir_name,
                 ascii "GTK:Read:Dir_Name:" ++ d,
                 ascii "GTK:Read:Base_Name:" ++ b,
                 ascii "GTK:Read:Format:" ++ f]) := by
      simp [load_print_options, stripLine d hd, stripLine b hb,
        stripLine f hf]
    refine ⟨[PrintAction.setSetting (ascii "output-basename") b,
             PrintAction.setSetting (ascii "output-dir") d,
             PrintAction.setSetting (ascii "output-file-format") f,
             PrintAction.setPrinter (ascii "Print to File"),
             PrintAction.setBackends (ascii "file"),
             PrintAction.callReal],
            [ascii "GTK:Read:Dir_Name:" ++ defaultOpts.dir_name,
             ascii "GTK:Read:Dir_Name:" ++ d,
             ascii "GTK:Read:Base_Name:" ++ b,
             ascii "GTK:Read:Format:" ++ f,
             ascii "GTK:Print Run:" ++ parentTitle],
            ?_, by simp, by simp, by simp, ?_, ?_, ?_⟩
    · unfold gtk_print_operation_run_first
      rw [hload]
      rfl
    all_goals
      (intro v hv;
       simp [hk1, hk2, hk3, hk4, hk5, hk6] at hv;
       exact hv)

/-! ## Claim C2 -/

/-- C2 (amended): after its one-time initialization, one invocation of an
interposed function emits trace lines that all begin with the tag of the
subsystem tag of the function (GTK:, GLX:, PANGO: or IO:); the number of lines per
call is exactly one for glXSwapBuffers, gtk_window_set_title,
gtk_window_set_modal, gtk_label_set_text_with_mnemonic, gtk_label_set_text,
gtk_print_operation_run, gtk_dialog_run, fclose, open64 and close, exactly
two for gtk_main_iteration, one or two for gtk_button_set_label and
gtk_file_chooser_get_filename, and at most one for gtk_widget_show,
pango_layout_set_text, fopen and fopen64. -/
theorem C2_trace_lines :
    (∀ cnt, (glXSwapBuffers cnt).2.length = 1 ∧
      ∀ l ∈ (glXSwapBuffers cnt).2, startsWith (ascii "GLX:") l = true) ∧
    (∀ buffer text, (pango_layout_set_text buffer text).2.length ≤ 1 ∧
      ∀ l ∈ (pango_layout_set_text buffer text).2,
        startsWith (ascii "PANGO:") l = true) ∧
    (∀ title, (gtk_window_set_title title).length = 1 ∧
      ∀ l ∈ gtk_window_set_title title, startsWith (ascii "GTK:") l = true) ∧
    (∀ title modal, (gtk_window_set_modal title modal).length = 1 ∧
      ∀ l ∈ gtk_window_set_modal title modal,
        startsWith (ascii "GTK:") l = true) ∧
    (∀ w title, (gtk_widget_show w title).length ≤ 1 ∧
      ∀ l ∈ gtk_widget_show w title, startsWith (ascii "GTK:") l = true) ∧
    (∀ label, (1 ≤ (gtk_button_set_label label).2.length ∧
        (gtk_button_set_label label).2.length ≤ 2) ∧
      ∀ l ∈ (gtk_button_set_label label).2,
        startsWith (ascii "GTK:") l = true) ∧
    (∀ s, (gtk_label_set_text_with_mnemonic s).2.length = 1 ∧
      ∀ l ∈ (gtk_label_set_text_with_mnemonic s).2,
        startsWith (ascii "GTK:") l = true) ∧
    (∀ s, (gtk_label_set_text s).2.length = 1 ∧
      ∀ l ∈ (gtk_label_set_text s).2, startsWith (ascii "GTK:") l = true) ∧
    (∀ opts r t, (gtk_print_operation_run opts r t).2.2.length = 1 ∧
      ∀ l ∈ (gtk_print_operation_run opts r t).2.2,
        startsWith (ascii "GTK:") l = true) ∧
    (∀ fn realRes, (1 ≤ (gtk_file_chooser_get_filename fn realRes).2.length ∧
        (gtk_file_chooser_get_filename fn realRes).2.length ≤ 2) ∧
      ∀ l ∈ (gtk_file_chooser_get_filename fn realRes).2,
        startsWith (ascii "GTK:") l = true) ∧
    (∀ (α : Type) (r : α) fname mode, (fopen r fname mode).2.length ≤ 1 ∧
      ∀ l ∈ (fopen r fname mode).2, startsWith (ascii "IO:") l = true) ∧
    (∀ (α : Type) (r : α) fname mode, (fopen64 r fname mode).2.length ≤ 1 ∧
      ∀ l ∈ (fopen64 r fname mode).2, startsWith (ascii "IO:") l = true) ∧
    (∀ r p, (fclose r p).2.length = 1 ∧
      ∀ l ∈ (fclose r p).2, startsWith (ascii "IO:") l = true) ∧
    (∀ r p, (open64 r p).2.length = 1 ∧
      ∀ l ∈ (open64 r p).2, startsWith (ascii "IO:") l = true) ∧
    (∀ r p, (close r p).2.length = 1 ∧
      ∀ l ∈ (close r p).2, startsWith (ascii "IO:") l = true) ∧
    (∀ r t, (gtk_dialog_run r t).2.length = 1 ∧
      ∀ l ∈ (gtk_dialog_run r t).2, startsWith (ascii "GTK:") l = true) ∧
    (∀ r, (gtk_main_iteration r).2.length = 2 ∧
      ∀ l ∈ (gtk_main_iteration r).2, startsWith (ascii "GTK:") l = true) := by
  refine ⟨?_, ?_, ?_, ?_, ?_, ?_, ?_, ?_, ?_, ?_, ?_, ?_, ?_, ?_, ?_, ?_, ?_⟩
  · intro cnt
    refine ⟨rfl, ?_⟩
    intro l hl
    simp only [glXSwapBuffers, List.mem_singleton] at hl
    subst hl
    exact startsWith_append _ _ _ (by decide)
  · intro buffer text
    by_cases hf : pangoFiltered text = true
    · simp [pango_layout_set_text, hf]
    · by_cases hb : text.take MAX_STORE ≠ buffer
      · constructor
        · simp [pango_layout_set_text, hf, hb]
        · intro l hl
          simp [pango_layout_set_text, hf, hb] at hl
          subst hl
          exact startsWith_append _ _ _ (by decide)
      · simp [pango_layout_set_text, hf, hb]
  · intro title
    refine ⟨rfl, ?_⟩
    intro l hl
    simp only [gtk_window_set_title, List.mem_singleton] at hl
    subst hl
    exact startsWith_append _ _ _ (by decide)
  · intro title modal
    refine ⟨rfl, ?_⟩
    intro l hl
    simp only [gtk_window_set_modal, List.mem_singleton] at hl
    subst hl
    exact startsWith_append _ _ _
      (startsWith_append _ _ _ (startsWith_append _ _ _ (by decide)))
  · intro w title
    constructor
    · cases w <;> simp [gtk_widget_show]
    · intro l hl
      cases w with
      | false => simp [gtk_widget_show] at hl
      | true =>
        simp only [gtk_widget_show, if_true, List.mem_singleton] at hl
        subst hl
        exact startsWith_append _ _ _ (by decide)
  · intro label
    constructor
    · by_cases h : gtk_button_set_label_subst label ≠ label <;>
        simp [gtk_button_set_label, h]
    · intro l hl
      simp only [gtk_button_set_label] at hl
      rcases List.mem_append.mp hl with h1 | h2
      · rw [List.mem_singleton] at h1
        subst h1
        exact startsWith_append _ _ _ (by decide)
      · by_cases h : gtk_button_set_label_subst label ≠ label
        · rw [if_pos h, List.mem_singleton] at h2
          subst h2
          exact startsWith_append _ _ _ (by decide)
        · rw [if_neg h] at h2
          exact absurd h2 (List.not_mem_nil l)
  · intro s
    refine ⟨rfl, ?_⟩
    intro l hl
    simp only [gtk_label_set_text_with_mnemonic, List.mem_singleton] at hl
    subst hl
    exact startsWith_append _ _ _ (by decide)
  · intro s
    refine ⟨rfl, ?_⟩
    intro l hl
    simp only [gtk_label_set_text, List.mem_singleton] at hl
    subst hl
    exact startsWith_append _ _ _ (by decide)
  · intro opts r t
    refine ⟨rfl, ?_⟩
    intro l hl
    simp only [gtk_print_operation_run, List.mem_singleton] at hl
    subst hl
    exact startsWith_append _ _ _ (by decide)
  · intro fn realRes
    cases fn with
    | none =>
      refine ⟨by simp [gtk_file_chooser_get_filename], ?_⟩
      intro l hl
      simp only [gtk_file_chooser_get_filename, List.mem_singleton] at hl
      subst hl
      exact startsWith_append _ _ _ (by decide)
    | some f =>
      refine ⟨by simp [gtk_file_chooser_get_filename], ?_⟩
      intro l hl
      simp only [gtk_file_chooser_get_filename, List.mem_cons,
        List.mem_singleton, List.not_mem_nil, or_false] at hl
      rcases hl with rfl | rfl
      · exact startsWith_append _ _ _ (by decide)
      · exact startsWith_append _ _ _ (by decide)
  · intro α r fname mode
    by_cases h : modeWT mode = true
    · refine ⟨by simp [fopen, h], ?_⟩
      intro l hl
      simp only [fopen, h, if_true, List.mem_singleton] at hl
      subst hl
      exact startsWith_append _ _ _ (by decide)
    · simp [fopen, h]
  · intro α r fname mode
    by_cases h : modeWT mode = true
    · refine ⟨by simp [fopen64, h], ?_⟩
      intro l hl
      simp only [fopen64, h, if_true, List.mem_singleton] at hl
      subst hl
      exact startsWith_append _ _ _ (by decide)
    · simp [fopen64, h]
  · intro r p
    refine ⟨rfl, ?_⟩
    intro l hl
    simp only [fclose, List.mem_singleton] at hl
    subst hl
    exact startsWith_append _ _ _ (by decide)
  · intro r p
    refine ⟨rfl, ?_⟩
    intro l hl
    simp only [open64, List.mem_singleton] at hl
    subst hl
    exact startsWith_append _ _ _ (by decide)
  · intro r p
    refine ⟨rfl, ?_⟩
    intro l hl
    simp only [close, List.mem_singleton] at hl
    subst hl
    exact startsWith_append _ _ _ (by decide)
  · intro r t
    refine ⟨rfl, ?_⟩
    intro l hl
    simp only [gtk_dialog_run, List.mem_singleton] at hl
    subst hl
    exact startsWith_append _ _ _ (by decide)
  · intro r
    refine ⟨rfl, ?_⟩
    intro l hl
    simp only [gtk_main_iteration, List.mem_cons, List.mem_singleton,
      List.not_mem_nil, or_false] at hl
    rcases hl with rfl | rfl
    · decide
    · exact startsWith_append _ _ _ (by decide)

/-- C2 counterexample: one invocation of gtk_main_iteration after
initialization emits two trace lines (entry and exit), not exactly one. -/
theorem C2_counterexample : (gtk_main_iteration true).2.length ≠ 1 := by
  decide

/-- C2 witness: the line-count and tag statements evaluated at
gtk_main_iteration true and at a concrete window title. -/
theorem C2_witness :
    (gtk_main_iteration true).2.length = 2 ∧
    startsWith (ascii "GTK:") (ascii "GTK:gtk_main_iteration:In") = true ∧
    (gtk_window_set_title (ascii "T")).length = 1 := by
  obtain ⟨-, -, hTitle, -, -, -, -, -, -, -, -, -, -, -, -, -, hMain⟩ :=
    C2_trace_lines
  exact ⟨(hMain true).1,
    (hMain true).2 (ascii "GTK:gtk_main_iteration:In") (by decide),
    (hTitle (ascii "T")).1⟩

/-- C5 witness: both configurations evaluated at concrete inputs. -/
theorem C5_witness :
    gtk_print_operation_run_first none none 0 [] ≠ none ∧
    gtk_print_operation_run_first (some (ascii "cfg"))
        (some [ascii "/d" ++ [10], ascii "nm" ++ [10], ascii "svg" ++ [10]])
        0 [] ≠ none := by
  obtain ⟨⟨acts1, lines1, heq1, _⟩, ⟨acts2, lines2, heq2, _⟩⟩ :=
    C5_print_configuration none (ascii "cfg") (ascii "/d") (ascii "nm")
      (ascii "svg") [] 0 (by decide) (by decide) (by decide)
  constructor
  · rw [heq1]; exact Option.noConfusion
  · rw [heq2]; exact Option.noConfusion

end Interposer
